import Mathlib

/-!
Verification of the playback-state coordinator of `reproductor.py`
(Music Minimal Player).  The Python source is shallowly embedded below:
pure helpers become Lean functions, the mutable object state of
`MusicMinimalPlayer` becomes an explicit `PlayerState` record threaded
through the operations, the external VLC engine becomes an oracle
parameter, and code that can raise returns `Except`/flag values.
-/

namespace Reproductor

/-! ## Python `sorted` and string helpers -/

/-- Model of Python `str.lower()` restricted to the character-wise map
(`reproductor.py` only compares ASCII paths). -/
def pyLower (s : String) : String := ⟨s.data.map Char.toLower⟩

/-- Lexicographic less-or-equal on character lists, exactly Python's string
comparison: compare code points position by position, ties advance, a
proper prefix is smaller.  Defined by structural recursion so that it
evaluates inside the kernel. -/
def lexLE : List Char → List Char → Bool
  | [], _ => true
  | _ :: _, [] => false
  | a :: as, b :: bs => if a = b then lexLE as bs else decide (a < b)

/-- Python string order `a <= b`. -/
def pyLE (a b : String) : Prop := lexLE a.data b.data = true

instance : DecidableRel pyLE := fun a b =>
  inferInstanceAs (Decidable (lexLE a.data b.data = true))

/-- Comparison used by `sorted(files, key=lambda x: x.lower())`
(`reproductor.py` lines 72 and 86). -/
def lowerLE (a b : String) : Prop := pyLE (pyLower a) (pyLower b)

instance : DecidableRel lowerLE := fun a b =>
  inferInstanceAs (Decidable (pyLE (pyLower a) (pyLower b)))

/-- Model of Python `sorted(l)` on strings: a stable sort by the
lexicographic (code-point) order.  `List.insertionSort` is stable, so it
agrees with CPython's stable sort. -/
def pySorted (l : List String) : List String := List.insertionSort pyLE l

/-- Model of Python `sorted(l, key=lambda x: x.lower())`. -/
def pySortedLower (l : List String) : List String := List.insertionSort lowerLE l

/-- Model of Python `f.lower().endswith((".mp3", ...))` membership test for one
suffix, computed on the character list so that it evaluates by `decide`. -/
def strEndsWith (s suffix : String) : Bool := List.isSuffixOf suffix.data s.data

/-- Audio-extension allow-list test from `scan_playlists`
(`reproductor.py` lines 69 and 82). -/
def is_audio (f : String) : Bool :=
  strEndsWith (pyLower f) ".mp3" || strEndsWith (pyLower f) ".wav" ||
  strEndsWith (pyLower f) ".flac" || strEndsWith (pyLower f) ".aac" ||
  strEndsWith (pyLower f) ".m4a" || strEndsWith (pyLower f) ".ogg"

/-- Model of `os.path.join(a, b)` for the POSIX paths built by the scanner. -/
def joinPath (a b : String) : String := a ++ "/" ++ b

/-- Model of `os.path.basename` (`reproductor.py` line 340): the suffix
after the last `/`, computed structurally on the character list so that
it evaluates inside the kernel. -/
def basename (p : String) : String :=
  ⟨p.data.foldl (fun acc c => if c = '/' then [] else acc ++ [c]) []⟩

/-! ## Filesystem model and `scan_playlists` (lines 59-88) -/

/-- Filesystem node: a regular file, or a directory with a readability flag
(whether `os.listdir` succeeds on it) and named children. -/
inductive FsNode where
  | file : FsNode
  | dir (readable : Bool) (entries : List (String × FsNode)) : FsNode

/-- Model of `os.path.isdir(path)`; `none` stands for a non-existent path. -/
def isdir : Option FsNode → Bool
  | some (FsNode.dir _ _) => true
  | _ => false

/-- Model of `os.listdir(path)`: raises on a regular file or an unreadable
directory, otherwise returns the entry names in directory order
(the Python code sorts them afterwards). -/
def listdir : FsNode → Except String (List String)
  | FsNode.file => Except.error "NotADirectoryError"
  | FsNode.dir false _ => Except.error "PermissionError"
  | FsNode.dir true es => Except.ok (es.map Prod.fst)

/-- Child lookup inside a directory node. -/
def childNode (n : FsNode) (name : String) : Option FsNode :=
  match n with
  | FsNode.file => none
  | FsNode.dir _ es => (es.find? (fun p => p.1 == name)).map Prod.snd

/-- Inner file loop of `scan_playlists`: list a directory, keep audio files,
join them onto the directory path (lines 67-70 and 80-83). -/
def audio_files (path : String) (n : FsNode) : Except String (List String) := do
  let names ← listdir n
  return (names.filter is_audio).map (fun f => joinPath path f)

/-- First pass of `scan_playlists` (lines 64-72): walk the sorted top-level
entries, register each subdirectory with audio files under its own name. -/
def passOne (rootPath : String) (rn : FsNode) : List String → Except String (List (String × List String))
  | [] => Except.ok []
  | e :: rest =>
    match childNode rn e with
    | some (FsNode.dir b es) => do
        let fs ← audio_files (joinPath rootPath e) (FsNode.dir b es)
        let rest2 ← passOne rootPath rn rest
        if fs.isEmpty then return rest2
        else return (e, pySortedLower fs) :: rest2
    | _ => passOne rootPath rn rest

/-- Inner loop of the second pass (lines 77-86): walk the sorted entries of
one top-level directory and register each qualifying child under
`"<parent>/<child>"`. -/
def passTwoInner (parentPath parentName : String) (pn : FsNode) : List String → Except String (List (String × List String))
  | [] => Except.ok []
  | sub :: rest =>
    match childNode pn sub with
    | some (FsNode.dir b es) => do
        let fs ← audio_files (joinPath parentPath sub) (FsNode.dir b es)
        let rest2 ← passTwoInner parentPath parentName pn rest
        if fs.isEmpty then return rest2
        else return (parentName ++ "/" ++ sub, pySortedLower fs) :: rest2
    | _ => passTwoInner parentPath parentName pn rest

/-- Second pass of `scan_playlists` (lines 74-86): for each sorted top-level
directory, descend exactly one more level. -/
def passTwo (rootPath : String) (rn : FsNode) : List String → Except String (List (String × List String))
  | [] => Except.ok []
  | e :: rest =>
    match childNode rn e with
    | some (FsNode.dir b es) => do
        let subs ← listdir (FsNode.dir b es)
        let here ← passTwoInner (joinPath rootPath e) e (FsNode.dir b es) (pySorted subs)
        let rest2 ← passTwo rootPath rn rest
        return here ++ rest2
    | _ => passTwo rootPath rn rest

/-- Embedding of `scan_playlists(root)` (`reproductor.py` lines 59-88).
A missing or non-directory root returns the empty catalog (line 61-62);
any `os.listdir` failure afterwards propagates, since the Python body has
no exception handler.  The insertion-ordered `dict` is modelled as an
association list: all registered keys are distinct (entry names contain no
slash), so the two passes simply append. -/
def scan_playlists (rootPath : String) (root : Option FsNode) : Except String (List (String × List String)) :=
  match root with
  | some (FsNode.dir b es) => do
      let names ← listdir (FsNode.dir b es)
      let p1 ← passOne rootPath (FsNode.dir b es) (pySorted names)
      let p2 ← passTwo rootPath (FsNode.dir b es) (pySorted names)
      return p1 ++ p2
  | _ => Except.ok []

/-- True when a playlist key was produced by the nested (second) pass:
those keys always contain a slash, while top-level entry names never do
on a real filesystem. -/
def hasSlash (s : String) : Bool := s.data.any (fun c => c == '/')

/-! ## Time formatting (lines 663-667) -/

/-- Model of the Python format spec `{n:02d}` for non-negative `n`:
zero-pad to at least two digits, longer numbers are not truncated. -/
def pad2 (n : Nat) : String := if n < 10 then "0" ++ toString n else toString n

/-- Embedding of `MusicMinimalPlayer.format_time(milliseconds)`
(`reproductor.py` lines 663-667) on non-negative inputs. -/
def format_time (milliseconds : Nat) : String :=
  pad2 (milliseconds / 1000 / 60) ++ ":" ++ pad2 (milliseconds / 1000 % 60)

/-! ## Config dictionary toggles (lines 295-297 and 315-320) -/

/-- Slice of the persisted `config` dict relevant to the two toggle
handlers; `Option` models key presence, since both handlers read the key
with `config.get(key, True)`. -/
structure ConfigDict where
  shuffle : Option Bool
  pinned : Option Bool
deriving DecidableEq

/-- Embedding of `MusicMinimalPlayer.on_shuffle_toggle` (lines 295-297):
`config["shuffle"] = config.get("shuffle", True)` followed by
`save_config`; persistence is the field value itself. -/
def on_shuffle_toggle (c : ConfigDict) : ConfigDict :=
  { c with shuffle := some (c.shuffle.getD true) }

/-- Embedding of `MusicMinimalPlayer.toggle_pin` (lines 315-320):
`config["pinned"] = config.get("pinned", True)`, window attribute calls,
then `save_config`. -/
def toggle_pin (c : ConfigDict) : ConfigDict :=
  { c with pinned := some (c.pinned.getD true) }

/-! ## End-of-track watcher (lines 622-642) -/

/-- The `vlc.State` enumeration values used by the watcher; `NothingSpecial`
is VLC's "nothing loaded" state. -/
inductive VlcState where
  | NothingSpecial | Opening | Buffering | Playing | Paused | Stopped | Ended | Error
deriving DecidableEq

/-- Engine observation during one watcher tick: the `is_playing()` flag and
the `get_state()` value. -/
structure EngineObs where
  isPlaying : Bool
  state : VlcState
deriving DecidableEq

/-- Embedding of `MusicMinimalPlayer.check_song_ended` (lines 635-642):
with a player and a non-empty playlist, spawn a `next_song` thread exactly
when the engine state is `Ended` or `NothingSpecial`.  The returned `Bool`
is whether `next_song` is triggered. -/
def check_song_ended (obs : EngineObs) (files : List String) : Bool :=
  if !files.isEmpty then
    obs.state == VlcState.Ended || obs.state == VlcState.NothingSpecial
  else false

/-- One iteration of `MusicMinimalPlayer.monitor_player` (lines 622-633)
with the engine observation held fixed across the tick: when
`is_playing()` is false and the playlist is non-empty the tick consults
`check_song_ended`.  The returned `Bool` is whether `next_song` is
triggered on this tick. -/
def monitor_tick (obs : EngineObs) (files : List String) : Bool :=
  if obs.isPlaying then false
  else if !obs.isPlaying && !files.isEmpty then check_song_ended obs files
  else false

/-! ## Playback coordinator state (class `MusicMinimalPlayer`) -/

/-- Result of the VLC command block inside `play_song_at_index`
(lines 341-353): either some call in the `try` block raises, or the block
succeeds and `media.get_meta(vlc.Meta.Title)` returns an optional
non-empty title. -/
inductive EngineResult where
  | err : EngineResult
  | ok (meta : Option String) : EngineResult
deriving DecidableEq

/-- Engine oracle: behaviour of the VLC block per media path. -/
def EngineEnv : Type := String → EngineResult

/-- Mutable state of `MusicMinimalPlayer` relevant to playlist/playback
coordination, with the persisted `config` entries it writes
(`playlist`, `song_index`, `shuffle`).  The UI labels `song_label` and
`play_btn` carry the observable display state.  The model takes the VLC
engine as present (`vlc is not None`), as all engine claims do.
The field `current_playlist_name` is the attribute of the same name,
which has been assigned in every constructed state: a startup with an
empty catalog never assigns it and raises `AttributeError` at the read
on line 323 before any state exists (see `initPlayer`). -/
structure PlayerState where
  playlists : List (String × List String)
  playlist_names : List String
  current_playlist_name : String
  current_playlist_files : List String
  current_index : Int
  config_playlist : String
  config_song_index : Int
  config_shuffle : Bool
  song_label : String
  play_btn : String
deriving DecidableEq

/-- Lookup `self.playlists.get(name, [])` (`reproductor.py` lines 106,
280 and 323). -/
def lookupPlaylist (pls : List (String × List String)) (n : String) : List String :=
  ((pls.find? (fun p => p.1 == n)).map Prod.snd).getD []

/-- Embedding of `MusicMinimalPlayer.play_song_at_index(idx)`
(`reproductor.py` lines 329-356).  Returns the new state together with a
flag telling whether the VLC command block was entered (an engine command
was issued).  Mirrors the source order: guards first, then
`current_index`/`config["song_index"]` assignment and `save_config`, then
the `try` block whose exception is caught and swallowed (`return`),
then the label updates. -/
def play_song_at_index (e : EngineEnv) (s : PlayerState) (idx : Int) : PlayerState × Bool :=
  if s.current_playlist_files.isEmpty then (s, false)
  else if idx < 0 ∨ (s.current_playlist_files.length : Int) ≤ idx then (s, false)
  else
    let s1 := { s with current_index := idx, config_song_index := idx }
    let file_path := s1.current_playlist_files.getD idx.toNat ""
    let title := basename file_path
    match e file_path with
    | EngineResult.err => (s1, true)
    | EngineResult.ok m =>
        let title2 := m.getD title
        ({ s1 with song_label := title2, play_btn := "⏸" }, true)

/-- Embedding of `MusicMinimalPlayer._load_current_playlist`
(lines 322-327).  The `Bool` is the engine-command flag of the inner
`play_song_at_index` call (`false` on the empty-playlist early return). -/
def load_current_playlist (e : EngineEnv) (s : PlayerState) : PlayerState × Bool :=
  let s1 := { s with current_playlist_files := lookupPlaylist s.playlists s.current_playlist_name }
  if s1.current_playlist_files.isEmpty then
    ({ s1 with song_label := "No files in playlist" }, false)
  else play_song_at_index e s1 s1.current_index

/-- Embedding of `MusicMinimalPlayer.on_playlist_change(playlist_name)`
(lines 288-293): unconditionally set the active playlist name, persist it,
reset the index to 0, and reload. -/
def on_playlist_change (e : EngineEnv) (s : PlayerState) (name : String) : PlayerState × Bool :=
  load_current_playlist e
    { s with current_playlist_name := name, config_playlist := name, current_index := 0 }

/-- Embedding of `MusicMinimalPlayer.next_song` (lines 590-597).  The
draw of `random.randrange(len(files))` is modelled by `r % len(files)`
for an arbitrary `r : Nat`, which ranges over exactly the values
`randrange` can return. -/
def next_song (e : EngineEnv) (r : Nat) (s : PlayerState) : PlayerState :=
  if s.current_playlist_files.isEmpty then s
  else
    let newIdx : Int :=
      if s.config_shuffle then ((r % s.current_playlist_files.length : Nat) : Int)
      else (s.current_index + 1) % (s.current_playlist_files.length : Int)
    (play_song_at_index e { s with current_index := newIdx } newIdx).1

/-- Embedding of `MusicMinimalPlayer.prev_song` (lines 599-606). -/
def prev_song (e : EngineEnv) (r : Nat) (s : PlayerState) : PlayerState :=
  if s.current_playlist_files.isEmpty then s
  else
    let newIdx : Int :=
      if s.config_shuffle then ((r % s.current_playlist_files.length : Nat) : Int)
      else (s.current_index - 1) % (s.current_playlist_files.length : Int)
    (play_song_at_index e { s with current_index := newIdx } newIdx).1

/-- Saved-config slice read by `__init__` (lines 101 and 108):
`config.get("playlist", "")`, `config.get("song_index", 0)`, and the
shuffle flag used later by `next_song`/`prev_song`. -/
structure SavedConfig where
  playlist : String
  song_index : Int
  shuffle : Bool
deriving DecidableEq

/-- Embedding of the coordinator part of `MusicMinimalPlayer.__init__`
(lines 93-121, ending in the `_load_current_playlist` call of line 121):
catalog already scanned, playlist names sorted, saved playlist restored
when known (else the first name), saved index kept unless it is
`>= len(files)` (only the upper bound is clamped).  When the catalog is
empty, `self.current_playlist_name` is only assigned inside
`if self.playlist_names:` (lines 100-105), so the attribute read in
`_load_current_playlist` (line 323) raises `AttributeError`: startup
fails and no player state is ever constructed. -/
def initPlayer (catalog : List (String × List String)) (cfg : SavedConfig) (e : EngineEnv) :
    Except String PlayerState :=
  let names := pySorted (catalog.map Prod.fst)
  if names.isEmpty then Except.error "AttributeError"
  else
    let nm := if cfg.playlist ∈ names then cfg.playlist else names.headD ""
    let files := lookupPlaylist catalog nm
    let idx := if (files.length : Int) ≤ cfg.song_index then 0 else cfg.song_index
    Except.ok ((load_current_playlist e
      { playlists := catalog
        playlist_names := names
        current_playlist_name := nm
        current_playlist_files := files
        current_index := idx
        config_playlist := cfg.playlist
        config_song_index := cfg.song_index
        config_shuffle := cfg.shuffle
        song_label := "No song playing"
        play_btn := "▶" }).1)

/-- UI-reachable coordinator operations quantified over in the invariant
claim: playlist selection, next, prev, and direct track selection.
`next`/`prev` carry the random draw consumed when shuffle is on. -/
inductive Op where
  | selectPlaylist (name : String)
  | next (r : Nat)
  | prev (r : Nat)
  | playAt (idx : Int)

/-- One UI-driven step of the coordinator; each step carries its own
engine oracle, as the engine may behave differently per call. -/
def step (e : EngineEnv) (s : PlayerState) (op : Op) : PlayerState :=
  match op with
  | Op.selectPlaylist name => (on_playlist_change e s name).1
  | Op.next r => next_song e r s
  | Op.prev r => prev_song e r s
  | Op.playAt idx => (play_song_at_index e s idx).1

/-- Run a sequence of operations from a state. -/
def run (s : PlayerState) (ops : List (EngineEnv × Op)) : PlayerState :=
  ops.foldl (fun st p => step p.1 st p.2) s

/-- Session invariant of the spec: either the current playlist is empty and
the session shows the empty status, or the current index is in range. -/
def Inv (s : PlayerState) : Prop :=
  (s.current_playlist_files = [] ∧ s.song_label = "No files in playlist")
  ∨ (0 ≤ s.current_index ∧ s.current_index < (s.current_playlist_files.length : Int))

/-! ## Concrete inputs used by witnesses and counterexamples -/

/-- Engine oracle whose command block always succeeds with no metadata. -/
def e0 : EngineEnv := fun _ => EngineResult.ok none

/-- Engine oracle whose command block always raises. -/
def efail : EngineEnv := fun _ => EngineResult.err

/-- A player state on a two-track playlist, first track current. -/
def s0 : PlayerState :=
  { playlists := [("A", ["a.mp3", "b.mp3"])]
    playlist_names := ["A"]
    current_playlist_name := "A"
    current_playlist_files := ["a.mp3", "b.mp3"]
    current_index := 0
    config_playlist := "A"
    config_song_index := 0
    config_shuffle := false
    song_label := "a.mp3"
    play_btn := "⏸" }

/-- A player state on a five-track playlist with current index 2 and
shuffle disabled (the spec's wraparound example). -/
def s7 : PlayerState :=
  { playlists := [("A", ["t0.mp3", "t1.mp3", "t2.mp3", "t3.mp3", "t4.mp3"])]
    playlist_names := ["A"]
    current_playlist_name := "A"
    current_playlist_files := ["t0.mp3", "t1.mp3", "t2.mp3", "t3.mp3", "t4.mp3"]
    current_index := 2
    config_playlist := "A"
    config_song_index := 2
    config_shuffle := false
    song_label := "t2.mp3"
    play_btn := "⏸" }

/-- A music root with two playlist folders whose names differ only in
letter case ordering: code-point order puts `"B"` before `"a"`, while
case-insensitive order would put `"a"` first. -/
def fsC6 : FsNode :=
  FsNode.dir true
    [("B", FsNode.dir true [("b.mp3", FsNode.file)]),
     ("a", FsNode.dir true [("a.mp3", FsNode.file)])]

/-- State produced by startup on the catalog `[("A", ["s.mp3"])]` with
persisted `song_index = -1`: the negative index survives the
upper-bound-only clamp of `__init__` and the bounds-checked no-op
`play_song_at_index(-1)`. -/
def stC2 : PlayerState :=
  { playlists := [("A", ["s.mp3"])]
    playlist_names := ["A"]
    current_playlist_name := "A"
    current_playlist_files := ["s.mp3"]
    current_index := -1
    config_playlist := "A"
    config_song_index := -1
    config_shuffle := false
    song_label := "No song playing"
    play_btn := "▶" }

/-- State produced by a healthy startup on a two-track catalog with
persisted `song_index = 0` and a succeeding engine. -/
def stC2b : PlayerState :=
  { playlists := [("A", ["s.mp3", "t.mp3"])]
    playlist_names := ["A"]
    current_playlist_name := "A"
    current_playlist_files := ["s.mp3", "t.mp3"]
    current_index := 0
    config_playlist := "A"
    config_song_index := 0
    config_shuffle := false
    song_label := "s.mp3"
    play_btn := "⏸" }

/-! ## Helper lemmas -/

theorem lexLE_total : ∀ l₁ l₂ : List Char, lexLE l₁ l₂ = true ∨ lexLE l₂ l₁ = true
  | [], _ => Or.inl rfl
  | _ :: _, [] => Or.inr rfl
  | a :: as, b :: bs => by
      by_cases hab : a = b
      · subst hab
        simpa [lexLE] using lexLE_total as bs
      · rcases lt_or_gt_of_ne hab with h | h
        · exact Or.inl (by simp [lexLE, hab, h])
        · exact Or.inr (by simp [lexLE, Ne.symm hab, h])

theorem lexLE_trans : ∀ l₁ l₂ l₃ : List Char,
    lexLE l₁ l₂ = true → lexLE l₂ l₃ = true → lexLE l₁ l₃ = true
  | [], _, _, _, _ => rfl
  | _ :: _, [], _, h, _ => by simp [lexLE] at h
  | _ :: _, _ :: _, [], _, h => by simp [lexLE] at h
  | a :: as, b :: bs, c :: cs, h₁, h₂ => by
      by_cases hab : a = b <;> by_cases hbc : b = c
      · subst hab; subst hbc
        simp only [lexLE, if_pos rfl] at h₁ h₂ ⊢
        exact lexLE_trans as bs cs h₁ h₂
      · subst hab
        simp [lexLE, hbc] at h₂
        simp [lexLE, hbc, h₂]
      · subst hbc
        simp [lexLE, hab] at h₁
        simp [lexLE, hab, h₁]
      · simp [lexLE, hab] at h₁
        simp [lexLE, hbc] at h₂
        have hac : a < c := lt_trans h₁ h₂
        simp [lexLE, ne_of_lt hac, hac]

theorem pad2_length_two : ∀ n : Nat, n < 60 → (pad2 n).length = 2 := by decide

/-! ## C9: time formatting -/

/-- C9: for every non-negative elapsed time in milliseconds, `format_time`
returns `MM:SS` with minutes `(ms / 1000) / 60` (unbounded, not truncated
at 99) and seconds `(ms / 1000) % 60` rendered as exactly two digits; the
spec's concrete examples hold, and `100` minutes stay three digits. -/
theorem C9_format_time_spec :
    (∀ ms : Nat,
      format_time ms = pad2 (ms / 1000 / 60) ++ ":" ++ pad2 (ms / 1000 % 60)
      ∧ (pad2 (ms / 1000 % 60)).length = 2)
    ∧ format_time 125000 = "02:05" ∧ format_time 59000 = "00:59"
    ∧ format_time 3661000 = "61:01" ∧ format_time 6000000 = "100:00" := by
  refine ⟨fun ms => ⟨rfl, pad2_length_two _ (Nat.mod_lt _ (by decide))⟩,
    by decide, by decide, by decide, by decide⟩

/-! ## C10: the shuffle and pin toggles are the identity on their flag -/

/-- C10: whenever the `shuffle` (resp. `pinned`) key is present in the
config, `on_shuffle_toggle` (resp. `toggle_pin`) leaves its value exactly
as it was, merely re-persisting it: both handlers read the current value
with `config.get(key, True)` and write it back unchanged. -/
theorem C10_toggles_are_identity (c : ConfigDict) (b p : Bool)
    (hs : c.shuffle = some b) (hp : c.pinned = some p) :
    (on_shuffle_toggle c).shuffle = some b ∧ (toggle_pin c).pinned = some p := by
  simp [on_shuffle_toggle, toggle_pin, hs, hp]

/-- Witness for C10 at a concrete config with both keys present. -/
theorem C10_witness :
    (on_shuffle_toggle ⟨some true, some false⟩).shuffle = some true
    ∧ (toggle_pin ⟨some true, some false⟩).pinned = some false :=
  C10_toggles_are_identity ⟨some true, some false⟩ true false rfl rfl

/-! ## C3: end-of-track watcher tick -/

/-- C3: on a watcher tick with a non-empty playlist, `next_song` is
triggered exactly when the engine reports not-playing and its state is
`Ended` or `NothingSpecial` (VLC's "nothing loaded"); a `Paused` state
(explicit user pause) never triggers the auto-advance. -/
theorem C3_watcher_tick (obs : EngineObs) (files : List String)
    (hne : files ≠ []) :
    (monitor_tick obs files = true ↔
      obs.isPlaying = false
      ∧ (obs.state = VlcState.Ended ∨ obs.state = VlcState.NothingSpecial))
    ∧ (obs.state = VlcState.Paused → monitor_tick obs files = false) := by
  have hne2 : files.isEmpty = false := by
    simpa [List.isEmpty_iff] using hne
  constructor
  · cases hp : obs.isPlaying <;>
      simp [monitor_tick, check_song_ended, hp, hne2]
  · intro hpause
    cases hp : obs.isPlaying <;>
      simp [monitor_tick, check_song_ended, hp, hne2, hpause]

/-- Witness for C3: a tick observing not-playing/`Ended` on a one-track
playlist triggers the advance. -/
theorem C3_witness :
    monitor_tick ⟨false, VlcState.Ended⟩ ["a.mp3"] = true :=
  (C3_watcher_tick ⟨false, VlcState.Ended⟩ ["a.mp3"] (by simp)).1.mpr
    ⟨rfl, Or.inl rfl⟩

/-! ## C8: out-of-range playAt is a no-op -/

/-- C8: for every index outside `[0, len(files))` — including every index
when the playlist is empty — `play_song_at_index` returns the state
completely unchanged and the VLC command block is never entered (no
engine command is issued). -/
theorem C8_playAt_out_of_range (e : EngineEnv) (s : PlayerState) (idx : Int)
    (h : idx < 0 ∨ (s.current_playlist_files.length : Int) ≤ idx) :
    play_song_at_index e s idx = (s, false) := by
  by_cases hemp : s.current_playlist_files.isEmpty <;>
    simp [play_song_at_index, hemp, h]

/-- Witness for C8: `playAt 5` on the two-track state is a strict no-op. -/
theorem C8_witness : play_song_at_index e0 s0 5 = (s0, false) :=
  C8_playAt_out_of_range e0 s0 5 (by decide)

theorem play_song_at_index_in_range (e : EngineEnv) (s : PlayerState) (idx : Int)
    (hne : s.current_playlist_files ≠ [])
    (h0 : 0 ≤ idx) (hlt : idx < (s.current_playlist_files.length : Int)) :
    (play_song_at_index e s idx).1.current_index = idx
    ∧ (play_song_at_index e s idx).1.config_song_index = idx
    ∧ (play_song_at_index e s idx).1.current_playlist_files = s.current_playlist_files
    ∧ (play_song_at_index e s idx).1.config_shuffle = s.config_shuffle
    ∧ (play_song_at_index e s idx).1.playlists = s.playlists
    ∧ (play_song_at_index e s idx).1.current_playlist_name = s.current_playlist_name
    ∧ (play_song_at_index e s idx).1.config_playlist = s.config_playlist := by
  have hemp : s.current_playlist_files.isEmpty = false := by
    simpa [List.isEmpty_iff] using hne
  have hcond : ¬ (idx < 0 ∨ (s.current_playlist_files.length : Int) ≤ idx) := by omega
  cases he : e (s.current_playlist_files.getD idx.toNat "") <;>
    simp only [List.getD_eq_getElem?_getD] at he <;>
    simp [play_song_at_index, hemp, hcond, he]

/-! ## C1: engine failure during play_song_at_index -/

/-- C1 counterexample: with the engine raising on load/play, starting from
the two-track state at index 0, `play_song_at_index 1` does NOT leave the
current track index and the persisted `song_index` unchanged, contrary to
the claim: both are already set to 1 before the engine command runs. -/
theorem C1_counterexample :
    ¬ ((play_song_at_index efail s0 1).1.current_index = s0.current_index
      ∧ (play_song_at_index efail s0 1).1.config_song_index = s0.config_song_index) := by
  decide

/-- C1 amended: when the engine command block raises on an in-range track,
the exception is caught and swallowed (the call returns normally, no
retry — the block is entered exactly once), the display labels are left
unchanged, but the current track index and the persisted `song_index`
have already been set to the requested track before the engine call, so
they do change. -/
theorem C1_engine_failure_state (e : EngineEnv) (s : PlayerState) (idx : Int)
    (hne : s.current_playlist_files ≠ [])
    (h0 : 0 ≤ idx) (hlt : idx < (s.current_playlist_files.length : Int))
    (hf : e (s.current_playlist_files.getD idx.toNat "") = EngineResult.err) :
    play_song_at_index e s idx =
      ({ s with current_index := idx, config_song_index := idx }, true) := by
  have hemp : s.current_playlist_files.isEmpty = false := by
    simpa [List.isEmpty_iff] using hne
  have hcond : ¬ (idx < 0 ∨ (s.current_playlist_files.length : Int) ≤ idx) := by omega
  simp only [List.getD_eq_getElem?_getD] at hf
  simp [play_song_at_index, hemp, hcond, hf]

/-- Witness for C1 (amended) at the concrete failing engine. -/
theorem C1_witness :
    play_song_at_index efail s0 1 =
      ({ s0 with current_index := 1, config_song_index := 1 }, true) :=
  C1_engine_failure_state efail s0 1 (by decide) (by decide) (by decide) rfl

/-! ## C4: selectPlaylist -/

/-- C4 counterexample: `"B"` is not in the catalog of `s0`, yet
`on_playlist_change "B"` is not a no-op: it overwrites the active playlist
name and the persisted `playlist` key (the handler never checks the name
against the catalog). -/
theorem C4_counterexample :
    "B" ∉ s0.playlists.map Prod.fst
    ∧ (on_playlist_change e0 s0 "B").1.config_playlist ≠ s0.config_playlist
    ∧ (on_playlist_change e0 s0 "B").1.current_playlist_name
        ≠ s0.current_playlist_name := by
  decide

/-- C4 amended: `selectPlaylist(name)` unconditionally (known name or not)
sets the active playlist name to `name`, persists it, and resets the
index to 0; when the name resolves to a non-empty playlist it triggers
load-and-play of track 0 (persisting index 0), and when it resolves to
nothing (unknown name or empty list) no engine command is issued and the
session shows the empty status. -/
theorem C4_selectPlaylist (e : EngineEnv) (s : PlayerState) (name : String) :
    (on_playlist_change e s name).1.current_playlist_name = name
    ∧ (on_playlist_change e s name).1.config_playlist = name
    ∧ (on_playlist_change e s name).1.current_index = 0
    ∧ (lookupPlaylist s.playlists name = [] →
        (on_playlist_change e s name).2 = false
        ∧ (on_playlist_change e s name).1.song_label = "No files in playlist"
        ∧ (on_playlist_change e s name).1.current_playlist_files = [])
    ∧ (lookupPlaylist s.playlists name ≠ [] →
        (on_playlist_change e s name).2 = true
        ∧ (on_playlist_change e s name).1.config_song_index = 0
        ∧ (on_playlist_change e s name).1.current_playlist_files
            = lookupPlaylist s.playlists name) := by
  by_cases hfe : lookupPlaylist s.playlists name = []
  · simp [on_playlist_change, load_current_playlist, hfe]
  · have hemp : (lookupPlaylist s.playlists name).isEmpty = false := by
      simpa [List.isEmpty_iff] using hfe
    have hpos : 0 < ((lookupPlaylist s.playlists name).length : Int) := by
      exact_mod_cast List.length_pos.mpr hfe
    have hcond : ¬ ((0 : Int) < 0
        ∨ ((lookupPlaylist s.playlists name).length : Int) ≤ 0) := by omega
    cases he : e ((lookupPlaylist s.playlists name).getD (0 : Int).toNat "") <;>
      simp only [List.getD_eq_getElem?_getD, Int.toNat_zero] at he <;>
      simp [on_playlist_change, load_current_playlist, play_song_at_index,
        hfe, hemp, hcond, he]

/-- Witness for C4 (amended) selecting the known playlist `"A"` from `s0`. -/
theorem C4_witness :
    (on_playlist_change e0 s0 "A").1.current_playlist_name = "A"
    ∧ (on_playlist_change e0 s0 "A").2 = true
    ∧ (on_playlist_change e0 s0 "A").1.config_song_index = 0 := by
  have h := C4_selectPlaylist e0 s0 "A"
  have h2 := h.2.2.2.2 (by decide)
  exact ⟨h.1, h2.1, h2.2.1⟩

/-! ## C7: next/prev wraparound with shuffle disabled -/

theorem next_song_shuffle_off (e : EngineEnv) (r : Nat) (s : PlayerState)
    (hsh : s.config_shuffle = false)
    (hne : s.current_playlist_files ≠ []) :
    (next_song e r s).current_index
        = (s.current_index + 1) % (s.current_playlist_files.length : Int)
    ∧ (next_song e r s).current_playlist_files = s.current_playlist_files
    ∧ (next_song e r s).config_shuffle = false := by
  have hemp : s.current_playlist_files.isEmpty = false := by
    simpa [List.isEmpty_iff] using hne
  have hL : 0 < (s.current_playlist_files.length : Int) := by
    exact_mod_cast List.length_pos.mpr hne
  have h0 : 0 ≤ (s.current_index + 1) % (s.current_playlist_files.length : Int) :=
    Int.emod_nonneg _ (by omega)
  have hlt : (s.current_index + 1) % (s.current_playlist_files.length : Int)
      < (s.current_playlist_files.length : Int) := Int.emod_lt_of_pos _ hL
  have hns : next_song e r s =
      (play_song_at_index e
        { s with current_index := (s.current_index + 1) % (s.current_playlist_files.length : Int) }
        ((s.current_index + 1) % (s.current_playlist_files.length : Int))).1 := by
    simp [next_song, hemp, hsh]
  have hfr := play_song_at_index_in_range e
    { s with current_index := (s.current_index + 1) % (s.current_playlist_files.length : Int) }
    ((s.current_index + 1) % (s.current_playlist_files.length : Int)) hne h0 hlt
  rw [hns]
  exact ⟨hfr.1, hfr.2.2.1, hfr.2.2.2.1.trans hsh⟩

theorem prev_song_shuffle_off (e : EngineEnv) (r : Nat) (s : PlayerState)
    (hsh : s.config_shuffle = false)
    (hne : s.current_playlist_files ≠ []) :
    (prev_song e r s).current_index
        = (s.current_index - 1) % (s.current_playlist_files.length : Int)
    ∧ (prev_song e r s).current_playlist_files = s.current_playlist_files
    ∧ (prev_song e r s).config_shuffle = false := by
  have hemp : s.current_playlist_files.isEmpty = false := by
    simpa [List.isEmpty_iff] using hne
  have hL : 0 < (s.current_playlist_files.length : Int) := by
    exact_mod_cast List.length_pos.mpr hne
  have h0 : 0 ≤ (s.current_index - 1) % (s.current_playlist_files.length : Int) :=
    Int.emod_nonneg _ (by omega)
  have hlt : (s.current_index - 1) % (s.current_playlist_files.length : Int)
      < (s.current_playlist_files.length : Int) := Int.emod_lt_of_pos _ hL
  have hps : prev_song e r s =
      (play_song_at_index e
        { s with current_index := (s.current_index - 1) % (s.current_playlist_files.length : Int) }
        ((s.current_index - 1) % (s.current_playlist_files.length : Int))).1 := by
    simp [prev_song, hemp, hsh]
  have hfr := play_song_at_index_in_range e
    { s with current_index := (s.current_index - 1) % (s.current_playlist_files.length : Int) }
    ((s.current_index - 1) % (s.current_playlist_files.length : Int)) hne h0 hlt
  rw [hps]
  exact ⟨hfr.1, hfr.2.2.1, hfr.2.2.2.1.trans hsh⟩

/-- C7: with shuffle disabled on a non-empty playlist of length `L` and a
current index in `[0, L)`, `next_song` moves to `(i + 1) % L`, `prev_song`
moves to `(i - 1) % L` (wraparound both directions), and `next_song`
followed by `prev_song` returns to the original index — whatever the
engine does on either call. -/
theorem C7_next_prev_wraparound (e1 e2 : EngineEnv) (r1 r2 : Nat) (s : PlayerState)
    (hsh : s.config_shuffle = false)
    (hne : s.current_playlist_files ≠ [])
    (h0 : 0 ≤ s.current_index)
    (hlt : s.current_index < (s.current_playlist_files.length : Int)) :
    (next_song e1 r1 s).current_index
        = (s.current_index + 1) % (s.current_playlist_files.length : Int)
    ∧ (prev_song e1 r1 s).current_index
        = (s.current_index - 1) % (s.current_playlist_files.length : Int)
    ∧ (prev_song e2 r2 (next_song e1 r1 s)).current_index = s.current_index := by
  obtain ⟨hni, hnf, hns⟩ := next_song_shuffle_off e1 r1 s hsh hne
  obtain ⟨hpi, -, -⟩ := prev_song_shuffle_off e1 r1 s hsh hne
  refine ⟨hni, hpi, ?_⟩
  have hne2 : (next_song e1 r1 s).current_playlist_files ≠ [] := by
    rw [hnf]; exact hne
  obtain ⟨hpi2, -, -⟩ := prev_song_shuffle_off e2 r2 (next_song e1 r1 s) hns hne2
  rw [hpi2, hni, hnf]
  rw [Int.sub_emod, Int.emod_emod_of_dvd _ dvd_rfl, ← Int.sub_emod,
    add_sub_cancel_right, Int.emod_eq_of_lt h0 hlt]

/-- Witness for C7: the spec's example — index 2 of a length-5 playlist,
next moves to 3, prev returns to 2. -/
theorem C7_witness :
    (next_song e0 0 s7).current_index = 3
    ∧ (prev_song e0 0 (next_song e0 0 s7)).current_index = 2 := by
  have h := C7_next_prev_wraparound e0 e0 0 0 s7 rfl (by decide) (by decide) (by decide)
  exact ⟨h.1, h.2.2⟩

/-! ## C2: index invariant over all reachable states -/

theorem Inv_play (e : EngineEnv) (s : PlayerState) (idx : Int) (h : Inv s) :
    Inv (play_song_at_index e s idx).1 := by
  by_cases hemp : s.current_playlist_files.isEmpty
  · simpa [play_song_at_index, hemp] using h
  · by_cases hcond : idx < 0 ∨ (s.current_playlist_files.length : Int) ≤ idx
    · simpa [play_song_at_index, hemp, hcond] using h
    · push_neg at hcond
      have hne : s.current_playlist_files ≠ [] := by
        simpa [List.isEmpty_iff] using hemp
      have hfr := play_song_at_index_in_range e s idx hne hcond.1 hcond.2
      refine Or.inr ⟨?_, ?_⟩
      · rw [hfr.1]; exact hcond.1
      · rw [hfr.1, hfr.2.2.1]; exact hcond.2

theorem Inv_load (e : EngineEnv) (s : PlayerState)
    (h : lookupPlaylist s.playlists s.current_playlist_name ≠ [] →
      0 ≤ s.current_index
      ∧ s.current_index
          < ((lookupPlaylist s.playlists s.current_playlist_name).length : Int)) :
    Inv (load_current_playlist e s).1 := by
  by_cases hfe : lookupPlaylist s.playlists s.current_playlist_name = []
  · refine Or.inl ?_
    simp [load_current_playlist, hfe]
  · have hemp : (lookupPlaylist s.playlists s.current_playlist_name).isEmpty = false := by
      simpa [List.isEmpty_iff] using hfe
    obtain ⟨h0, hlt⟩ := h hfe
    have hl : load_current_playlist e s =
        play_song_at_index e
          { s with current_playlist_files := lookupPlaylist s.playlists s.current_playlist_name }
          s.current_index := by
      simp [load_current_playlist, hemp]
    rw [hl]
    exact Inv_play _ _ _ (Or.inr ⟨h0, hlt⟩)

theorem Inv_next (e : EngineEnv) (r : Nat) (s : PlayerState) (h : Inv s) :
    Inv (next_song e r s) := by
  by_cases hemp : s.current_playlist_files.isEmpty
  · simpa [next_song, hemp] using h
  · have hne : s.current_playlist_files ≠ [] := by
      simpa [List.isEmpty_iff] using hemp
    have hLn : 0 < s.current_playlist_files.length := List.length_pos.mpr hne
    have hL : 0 < (s.current_playlist_files.length : Int) := by exact_mod_cast hLn
    by_cases hsh : s.config_shuffle
    · have heq : next_song e r s =
          (play_song_at_index e
            { s with current_index := ((r % s.current_playlist_files.length : Nat) : Int) }
            ((r % s.current_playlist_files.length : Nat) : Int)).1 := by
        simp [next_song, hemp, hsh]
      rw [heq]
      refine Inv_play _ _ _ (Or.inr ⟨?_, ?_⟩)
      · exact Int.natCast_nonneg _
      · show ((r % s.current_playlist_files.length : Nat) : Int)
            < (s.current_playlist_files.length : Int)
        exact_mod_cast Nat.mod_lt r hLn
    · have heq : next_song e r s =
          (play_song_at_index e
            { s with current_index := (s.current_index + 1) % (s.current_playlist_files.length : Int) }
            ((s.current_index + 1) % (s.current_playlist_files.length : Int))).1 := by
        simp [next_song, hemp, hsh]
      rw [heq]
      exact Inv_play _ _ _ (Or.inr ⟨Int.emod_nonneg _ (by omega), Int.emod_lt_of_pos _ hL⟩)

theorem Inv_prev (e : EngineEnv) (r : Nat) (s : PlayerState) (h : Inv s) :
    Inv (prev_song e r s) := by
  by_cases hemp : s.current_playlist_files.isEmpty
  · simpa [prev_song, hemp] using h
  · have hne : s.current_playlist_files ≠ [] := by
      simpa [List.isEmpty_iff] using hemp
    have hLn : 0 < s.current_playlist_files.length := List.length_pos.mpr hne
    have hL : 0 < (s.current_playlist_files.length : Int) := by exact_mod_cast hLn
    by_cases hsh : s.config_shuffle
    · have heq : prev_song e r s =
          (play_song_at_index e
            { s with current_index := ((r % s.current_playlist_files.length : Nat) : Int) }
            ((r % s.current_playlist_files.length : Nat) : Int)).1 := by
        simp [prev_song, hemp, hsh]
      rw [heq]
      refine Inv_play _ _ _ (Or.inr ⟨?_, ?_⟩)
      · exact Int.natCast_nonneg _
      · show ((r % s.current_playlist_files.length : Nat) : Int)
            < (s.current_playlist_files.length : Int)
        exact_mod_cast Nat.mod_lt r hLn
    · have heq : prev_song e r s =
          (play_song_at_index e
            { s with current_index := (s.current_index - 1) % (s.current_playlist_files.length : Int) }
            ((s.current_index - 1) % (s.current_playlist_files.length : Int))).1 := by
        simp [prev_song, hemp, hsh]
      rw [heq]
      exact Inv_play _ _ _ (Or.inr ⟨Int.emod_nonneg _ (by omega), Int.emod_lt_of_pos _ hL⟩)

theorem Inv_select (e : EngineEnv) (s : PlayerState) (name : String) :
    Inv (on_playlist_change e s name).1 := by
  unfold on_playlist_change
  apply Inv_load
  intro hne
  dsimp only at hne ⊢
  refine ⟨le_refl 0, ?_⟩
  exact_mod_cast List.length_pos.mpr hne

theorem Inv_step (e : EngineEnv) (s : PlayerState) (op : Op) (h : Inv s) :
    Inv (step e s op) := by
  cases op with
  | selectPlaylist name => exact Inv_select e s name
  | next r => exact Inv_next e r s h
  | prev r => exact Inv_prev e r s h
  | playAt idx => exact Inv_play e s idx h

theorem Inv_run (s : PlayerState) (ops : List (EngineEnv × Op)) (h : Inv s) :
    Inv (run s ops) := by
  induction ops generalizing s with
  | nil => exact h
  | cons p rest ih => exact ih _ (Inv_step p.1 s p.2 h)

theorem Inv_init (catalog : List (String × List String)) (cfg : SavedConfig) (e : EngineEnv)
    (st : PlayerState) (hok : initPlayer catalog cfg e = Except.ok st)
    (h : 0 ≤ cfg.song_index) : Inv st := by
  by_cases hn : (pySorted (catalog.map Prod.fst)).isEmpty
  · have herr : initPlayer catalog cfg e = Except.error "AttributeError" := by
      simp [initPlayer, hn]
    rw [herr] at hok
    exact Except.noConfusion hok
  · have heq : initPlayer catalog cfg e = Except.ok
        ((load_current_playlist e
          { playlists := catalog
            playlist_names := pySorted (catalog.map Prod.fst)
            current_playlist_name :=
              if cfg.playlist ∈ pySorted (catalog.map Prod.fst) then cfg.playlist
              else (pySorted (catalog.map Prod.fst)).headD ""
            current_playlist_files :=
              lookupPlaylist catalog
                (if cfg.playlist ∈ pySorted (catalog.map Prod.fst) then cfg.playlist
                 else (pySorted (catalog.map Prod.fst)).headD "")
            current_index :=
              if ((lookupPlaylist catalog
                    (if cfg.playlist ∈ pySorted (catalog.map Prod.fst) then cfg.playlist
                     else (pySorted (catalog.map Prod.fst)).headD "")).length : Int)
                  ≤ cfg.song_index then 0
              else cfg.song_index
            config_playlist := cfg.playlist
            config_song_index := cfg.song_index
            config_shuffle := cfg.shuffle
            song_label := "No song playing"
            play_btn := "▶" }).1) := by
      simp [initPlayer, hn]
    rw [heq] at hok
    cases hok
    apply Inv_load
    intro hne
    dsimp only at hne ⊢
    have hpos : 0 <
        ((lookupPlaylist catalog
          (if cfg.playlist ∈ pySorted (catalog.map Prod.fst) then cfg.playlist
           else (pySorted (catalog.map Prod.fst)).headD "")).length : Int) := by
      exact_mod_cast List.length_pos.mpr hne
    by_cases hc :
        ((lookupPlaylist catalog
          (if cfg.playlist ∈ pySorted (catalog.map Prod.fst) then cfg.playlist
           else (pySorted (catalog.map Prod.fst)).headD "")).length : Int) ≤ cfg.song_index
    · rw [if_pos hc]
      exact ⟨le_refl 0, hpos⟩
    · rw [if_neg hc]
      exact ⟨h, by omega⟩

/-- C2 counterexample: startup from a persisted `song_index` of `-1`
(`config.json` may hold any integer; `__init__` only clamps the upper
bound) succeeds and leaves the player in state `stC2`: a non-empty
playlist with current index `-1`, violating the claimed invariant before
any operation runs. -/
theorem C2_counterexample :
    initPlayer [("A", ["s.mp3"])] ⟨"A", -1, false⟩ e0 = Except.ok stC2
    ∧ stC2.current_playlist_files ≠ []
    ∧ stC2.current_index = -1
    ∧ ¬ Inv stC2 := by
  refine ⟨by rfl, by decide, by decide, ?_⟩
  unfold Inv
  decide

/-- C2 amended: whenever startup succeeds (it raises `AttributeError`
when the catalog is empty, since `current_playlist_name` is never
assigned — line 323) and the persisted `song_index` is non-negative, in
every reachable state (after startup and after any sequence of
selectPlaylist/next/prev/playAt operations, under any engine behaviour
and any shuffle draws) the current index lies in `[0, len(playlist))`
whenever the current playlist is non-empty, and an empty playlist
(reached by selecting a name that resolves to no files) is reported
through the empty status.  A negative persisted index survives startup
unclamped, which is the remaining failure mode (see the
counterexample). -/
theorem C2_index_invariant (catalog : List (String × List String)) (cfg : SavedConfig)
    (e : EngineEnv) (st : PlayerState) (ops : List (EngineEnv × Op))
    (hok : initPlayer catalog cfg e = Except.ok st) (h : 0 ≤ cfg.song_index) :
    Inv (run st ops) :=
  Inv_run _ ops (Inv_init catalog cfg e st hok h)

/-- Witness for C2 (amended): a concrete successful startup (producing
`stC2b`) plus a `next` and a `playAt` step keeps the invariant. -/
theorem C2_witness :
    Inv (run stC2b [(e0, Op.next 0), (efail, Op.playAt 1)]) :=
  C2_index_invariant [("A", ["s.mp3", "t.mp3"])] ⟨"A", 0, false⟩ e0 stC2b
    [(e0, Op.next 0), (efail, Op.playAt 1)] (by rfl) (by decide)

/-! ## C5: scan on a missing or unreadable root -/

/-- C5 counterexample: a root that exists as a directory but is unreadable
makes `scan_playlists` propagate the `os.listdir` error (the Python body
has no handler), instead of returning the claimed empty catalog. -/
theorem C5_counterexample :
    scan_playlists "/root/Music" (some (FsNode.dir false [("a", FsNode.file)]))
      ≠ Except.ok [] := by
  intro h
  exact Except.noConfusion h

/-- C5 amended: a root that does not exist or is not a directory yields the
empty catalog without error (`os.path.isdir` guard, lines 61-62); a root
directory that cannot be listed raises `PermissionError` out of `scan`. -/
theorem C5_scan_missing_root (rootPath : String) (root : Option FsNode)
    (h : isdir root = false) :
    scan_playlists rootPath root = Except.ok []
    ∧ ∀ es, scan_playlists rootPath (some (FsNode.dir false es))
        = Except.error "PermissionError" := by
  constructor
  · match root, h with
    | none, _ => rfl
    | some FsNode.file, _ => rfl
  · intro es
    rfl

/-- Witness for C5 (amended) at a missing root. -/
theorem C5_witness :
    scan_playlists "/root/Music" none = Except.ok []
    ∧ scan_playlists "/root/Music" (some (FsNode.dir false []))
        = Except.error "PermissionError" := by
  have h := C5_scan_missing_root "/root/Music" none rfl
  exact ⟨h.1, h.2 []⟩

/-! ## C6: ordering produced by scan -/

/-- C6 counterexample: with folders `"B"` and `"a"`, `scan_playlists`
registers the top-level names in plain `sorted` (code-point) order
`["B", "a"]`, which is not case-insensitive order (`"a"` would come
first). -/
theorem C6_counterexample :
    scan_playlists "/m" (some fsC6)
      = Except.ok [("B", ["/m/B/b.mp3"]), ("a", ["/m/a/a.mp3"])]
    ∧ ¬ List.Pairwise lowerLE ["B", "a"] := by
  refine ⟨by rfl, ?_⟩
  decide

theorem except_bind_ok {α β : Type} {x : Except String α} {f : α → Except String β} {b : β}
    (h : x >>= f = Except.ok b) : ∃ a, x = Except.ok a ∧ f a = Except.ok b := by
  cases x with
  | error err => exact Except.noConfusion h
  | ok a => exact ⟨a, rfl, h⟩

theorem pairwise_pySorted (l : List String) : (pySorted l).Pairwise pyLE := by
  haveI : IsTotal String pyLE := ⟨fun a b => lexLE_total a.data b.data⟩
  haveI : IsTrans String pyLE := ⟨fun a b c => lexLE_trans a.data b.data c.data⟩
  exact List.sorted_insertionSort pyLE l

theorem pairwise_pySortedLower (l : List String) : (pySortedLower l).Pairwise lowerLE := by
  haveI : IsTotal String lowerLE :=
    ⟨fun a b => lexLE_total (pyLower a).data (pyLower b).data⟩
  haveI : IsTrans String lowerLE :=
    ⟨fun a b c => lexLE_trans (pyLower a).data (pyLower b).data (pyLower c).data⟩
  exact List.sorted_insertionSort lowerLE l

theorem hasSlash_join (a b : String) : hasSlash (a ++ "/" ++ b) = true := by
  have h : ("/" : String).data = ['/'] := rfl
  simp [hasSlash, String.data_append, h]

theorem passOne_ok (rootPath : String) (rn : FsNode) :
    ∀ (names : List String) (l : List (String × List String)),
      passOne rootPath rn names = Except.ok l →
      (l.map Prod.fst).Sublist names ∧ ∀ pl ∈ l, List.Pairwise lowerLE pl.2
  | [], l, h => by
      simp only [passOne] at h
      cases h
      simp
  | e :: rest, l, h => by
      simp only [passOne] at h
      split at h
      · rcases except_bind_ok h with ⟨fs, hfs, h2⟩
        rcases except_bind_ok h2 with ⟨rest2, hrest2, h3⟩
        obtain ⟨ihsub, ihsorted⟩ := passOne_ok rootPath rn rest rest2 hrest2
        by_cases hfe : fs.isEmpty
        · rw [if_pos hfe] at h3
          cases h3
          exact ⟨ihsub.cons e, ihsorted⟩
        · rw [if_neg hfe] at h3
          cases h3
          refine ⟨ihsub.cons₂ e, ?_⟩
          intro pl hpl
          rcases List.mem_cons.1 hpl with h4 | h4
          · subst h4
            exact pairwise_pySortedLower fs
          · exact ihsorted pl h4
      · obtain ⟨ihsub, ihsorted⟩ := passOne_ok rootPath rn rest l h
        exact ⟨ihsub.cons e, ihsorted⟩

theorem passTwoInner_ok (parentPath parentName : String) (pn : FsNode) :
    ∀ (subs : List String) (l : List (String × List String)),
      passTwoInner parentPath parentName pn subs = Except.ok l →
      ∀ pl ∈ l, hasSlash pl.1 = true ∧ List.Pairwise lowerLE pl.2
  | [], l, h => by
      simp only [passTwoInner] at h
      cases h
      simp
  | sub :: rest, l, h => by
      simp only [passTwoInner] at h
      split at h
      · rcases except_bind_ok h with ⟨fs, hfs, h2⟩
        rcases except_bind_ok h2 with ⟨rest2, hrest2, h3⟩
        have ih := passTwoInner_ok parentPath parentName pn rest rest2 hrest2
        by_cases hfe : fs.isEmpty
        · rw [if_pos hfe] at h3
          cases h3
          exact ih
        · rw [if_neg hfe] at h3
          cases h3
          intro pl hpl
          rcases List.mem_cons.1 hpl with h4 | h4
          · subst h4
            exact ⟨hasSlash_join parentName sub, pairwise_pySortedLower fs⟩
          · exact ih pl h4
      · exact passTwoInner_ok parentPath parentName pn rest l h

theorem passTwo_ok (rootPath : String) (rn : FsNode) :
    ∀ (names : List String) (l : List (String × List String)),
      passTwo rootPath rn names = Except.ok l →
      ∀ pl ∈ l, hasSlash pl.1 = true ∧ List.Pairwise lowerLE pl.2
  | [], l, h => by
      simp only [passTwo] at h
      cases h
      simp
  | e :: rest, l, h => by
      simp only [passTwo] at h
      split at h
      · rcases except_bind_ok h with ⟨subs, hsubs, h2⟩
        rcases except_bind_ok h2 with ⟨here, hhere, h3⟩
        rcases except_bind_ok h3 with ⟨rest2, hrest2, h4⟩
        cases h4
        intro pl hpl
        rcases List.mem_append.1 hpl with h5 | h5
        · exact passTwoInner_ok _ _ _ _ here hhere pl h5
        · exact passTwo_ok rootPath rn rest rest2 hrest2 pl h5
      · exact passTwo_ok rootPath rn rest l h

/-- C6 amended: for every readable root directory whose entry names contain
no slash (true of any real filesystem), when `scan_playlists` succeeds the
top-level playlist names (the slash-free keys) appear in plain `sorted`
code-point order — NOT case-insensitively — while each playlist's file
list is sorted case-insensitively by path. -/
theorem C6_scan_sorted (rootPath : String) (rb : Bool) (es : List (String × FsNode))
    (cat : List (String × List String))
    (hnames : ∀ p ∈ es, hasSlash p.1 = false)
    (hscan : scan_playlists rootPath (some (FsNode.dir rb es)) = Except.ok cat) :
    ((cat.map Prod.fst).filter (fun k => !hasSlash k)).Pairwise pyLE
    ∧ ∀ pl ∈ cat, List.Pairwise lowerLE pl.2 := by
  cases rb with
  | false => exact Except.noConfusion hscan
  | true =>
    simp only [scan_playlists] at hscan
    rcases except_bind_ok hscan with ⟨names, hlist, h2⟩
    rcases except_bind_ok h2 with ⟨p1, hp1, h3⟩
    rcases except_bind_ok h3 with ⟨p2, hp2, h4⟩
    cases h4
    simp only [listdir] at hlist
    cases hlist
    obtain ⟨hsub, hsorted1⟩ := passOne_ok rootPath _ _ _ hp1
    have hsorted2 := passTwo_ok rootPath _ _ _ hp2
    constructor
    · rw [List.map_append, List.filter_append]
      have hp1f : (p1.map Prod.fst).filter (fun k => !hasSlash k) = p1.map Prod.fst := by
        rw [List.filter_eq_self]
        intro a ha
        have hmem : a ∈ pySorted (es.map Prod.fst) := hsub.subset ha
        have hmem2 : a ∈ es.map Prod.fst := (List.mem_insertionSort pyLE).1 hmem
        obtain ⟨p, hp, rfl⟩ := List.mem_map.1 hmem2
        simp [hnames p hp]
      have hp2f : (p2.map Prod.fst).filter (fun k => !hasSlash k) = [] := by
        rw [List.filter_eq_nil_iff]
        intro a ha
        obtain ⟨pl, hpl, rfl⟩ := List.mem_map.1 ha
        simp [(hsorted2 pl hpl).1]
      rw [hp1f, hp2f, List.append_nil]
      exact List.Pairwise.sublist hsub (pairwise_pySorted (es.map Prod.fst))
    · intro pl hpl
      rcases List.mem_append.1 hpl with h5 | h5
      · exact hsorted1 pl h5
      · exact (hsorted2 pl h5).2

/-- Witness for C6 (amended) on the concrete two-folder root `fsC6`. -/
theorem C6_witness :
    ((([("B", ["/m/B/b.mp3"]), ("a", ["/m/a/a.mp3"])]
        : List (String × List String)).map Prod.fst).filter
          (fun k => !hasSlash k)).Pairwise pyLE
    ∧ ∀ pl ∈ ([("B", ["/m/B/b.mp3"]), ("a", ["/m/a/a.mp3"])]
        : List (String × List String)), List.Pairwise lowerLE pl.2 :=
  C6_scan_sorted "/m" true
    [("B", FsNode.dir true [("b.mp3", FsNode.file)]),
     ("a", FsNode.dir true [("a.mp3", FsNode.file)])]
    [("B", ["/m/B/b.mp3"]), ("a", ["/m/a/a.mp3"])]
    (by decide) (by rfl)

end Reproductor
